import Mathlib

/-
Verification of the Sapling API client (src/sapling/client.py).

The client is shallowly embedded: each Python method of SaplingClient
becomes a pure Lean function taking the client record, the method's
arguments, and the (already received and parsed) HTTP response, and
returning the single HTTP POST request the method issues, the method's
outcome (the returned JSON value, or the message of the raised
exception), and the client state after the call.  Python None arguments
are Option.none; uuid.uuid4 calls are modelled by explicit string
parameters holding the minted identifier.
-/

namespace Sapling

/-- JSON values, as produced by requests' resp.json and json.dumps.
Python None is Json.null; dict insertion order is preserved by the
association list of Json.obj. -/
inductive Json where
  | null : Json
  | bool : Bool → Json
  | num : Int → Json
  | str : String → Json
  | arr : List Json → Json
  | obj : List (String × Json) → Json

/-- First value bound to a key in an association list of JSON fields,
as Python dict lookup would find it (keys are unique in the payloads
the client builds, so first match is the dict's value). -/
def lookupJ : List (String × Json) → String → Option Json
  | [], _ => none
  | (k, v) :: rest, key => if k = key then some v else lookupJ rest key

/-- Python dict.get k on a parsed JSON object: the field's value, or
None (Json.null) when the key is missing.  The client only calls it on
decoded response bodies, which are objects. -/
def Json.get (j : Json) (k : String) : Json :=
  match j with
  | Json.obj fields =>
    match lookupJ fields k with
    | some v => v
    | none => Json.null
  | _ => Json.null

/-- Python `x or d` for an optional string x: None and the empty string
(the only falsy str) fall through to the default d. -/
def pyOrStr (v : Option String) (d : String) : String :=
  match v with
  | none => d
  | some s => if s = "" then d else s

/-- Python `if v is not None: data[k] = v`: append the field to the
payload (a fresh key appended to a Python dict goes last) only when the
argument is not None. -/
def addOpt (data : List (String × Json)) (k : String) (v : Option Json) :
    List (String × Json) :=
  match v with
  | none => data
  | some j => data ++ [(k, j)]

/-- Configuration stored by SaplingClient.__init__. -/
structure SaplingClient where
  api_key : String
  timeout : Int
  hostname : String
  pathname : String
  url_endpoint : String
  default_session_id : String

/-- SaplingClient.__init__ (client.py lines 18-30): hostname and
pathname default via Python `or`, url_endpoint is their concatenation,
and default_session_id is str(uuid.uuid4()), modelled by the
fresh_uuid parameter holding the identifier minted at construction. -/
def SaplingClient.init (api_key : String) (timeout : Int)
    (hostname : Option String) (pathname : Option String)
    (fresh_uuid : String) : SaplingClient :=
  let hostname := pyOrStr hostname "https://api.sapling.ai"
  let pathname := pyOrStr pathname "/api/v1/"
  ⟨api_key, timeout, hostname, pathname, hostname ++ pathname, fresh_uuid⟩

/-- An HTTP response as the client observes it: requests' status_code,
text, and the value resp.json() decodes to. -/
structure Response where
  status_code : Int
  text : String
  json : Json

/-- The one requests.post a method performs: its url, JSON body, and
timeout argument. -/
structure HttpPost where
  url : String
  data : List (String × Json)
  timeout : Int

/-- What one method call amounts to: the request it sent, its outcome
(Except.ok with the returned JSON value, Python None being Json.null,
or Except.error with the message of the raised Exception), and the
client state when the method returns. -/
structure CallResult where
  post : HttpPost
  result : Except String Json
  client : SaplingClient

/-- SaplingClient.edits (client.py lines 32-150). -/
def SaplingClient.edits (c : SaplingClient) (text : String)
    (session_id : Option String) (lang : Option String)
    (variety : Option String) (medical : Option Bool)
    (auto_apply : Option Bool) (advanced_edits : Option Json)
    (user_id : Option String) (is_anon_user : Option Bool)
    (resp : Response) : CallResult :=
  let url := c.url_endpoint ++ "edits"
  let session_id := pyOrStr session_id c.default_session_id
  let data := [("key", Json.str c.api_key), ("text", Json.str text),
               ("session_id", Json.str session_id)]
  let data := addOpt data "lang" (lang.map Json.str)
  let data := addOpt data "variety" (variety.map Json.str)
  let data := addOpt data "medical" (medical.map Json.bool)
  let data := addOpt data "auto_apply" (auto_apply.map Json.bool)
  let data := addOpt data "advanced_edits" advanced_edits
  let data := addOpt data "user_id" (user_id.map Json.str)
  let data := addOpt data "is_anon_user" (is_anon_user.map Json.bool)
  let result :=
    if 200 ≤ resp.status_code ∧ resp.status_code < 300 then
      Except.ok resp.json
    else
      Except.error ("HTTP " ++ toString resp.status_code ++ ": " ++ resp.text)
  ⟨⟨url, data, c.timeout⟩, result, c⟩

/-- SaplingClient.accept_edit (client.py lines 152-189).  The error
message interpolates the literal text resp.text: the source f-string
has no braces around it. -/
def SaplingClient.accept_edit (c : SaplingClient) (edit_uuid : String)
    (session_id : Option String) (user_id : Option String)
    (resp : Response) : CallResult :=
  let url := c.url_endpoint ++ "edits/" ++ edit_uuid ++ "/accept"
  let session_id := pyOrStr session_id c.default_session_id
  let data := [("key", Json.str c.api_key),
               ("session_id", Json.str session_id)]
  let data := addOpt data "user_id" (user_id.map Json.str)
  let result :=
    if 200 ≤ resp.status_code ∧ resp.status_code < 300 then
      Except.ok Json.null
    else
      Except.error ("HTTP " ++ toString resp.status_code ++ ": resp.text")
  ⟨⟨url, data, c.timeout⟩, result, c⟩

/-- SaplingClient.reject_edit (client.py lines 191-228); same literal
resp.text in the error message as accept_edit. -/
def SaplingClient.reject_edit (c : SaplingClient) (edit_uuid : String)
    (session_id : Option String) (user_id : Option String)
    (resp : Response) : CallResult :=
  let url := c.url_endpoint ++ "edits/" ++ edit_uuid ++ "/reject"
  let session_id := pyOrStr session_id c.default_session_id
  let data := [("key", Json.str c.api_key),
               ("session_id", Json.str session_id)]
  let data := addOpt data "user_id" (user_id.map Json.str)
  let result :=
    if 200 ≤ resp.status_code ∧ resp.status_code < 300 then
      Except.ok Json.null
    else
      Except.error ("HTTP " ++ toString resp.status_code ++ ": resp.text")
  ⟨⟨url, data, c.timeout⟩, result, c⟩

/-- SaplingClient.spellcheck (client.py lines 230-354).  On success the
method returns resp.json().get of the edits field. -/
def SaplingClient.spellcheck (c : SaplingClient) (text : String)
    (session_id : Option String) (min_length : Option Int)
    (multiple_edits : Option Bool) (lang : Option String)
    (auto_apply : Option Bool) (variety : Option String)
    (user_data : Option Json) (user_id : Option String)
    (is_anon_user : Option Bool) (resp : Response) : CallResult :=
  let url := c.url_endpoint ++ "spellcheck"
  let session_id := pyOrStr session_id c.default_session_id
  let data := [("key", Json.str c.api_key), ("text", Json.str text),
               ("session_id", Json.str session_id)]
  let data := addOpt data "min_length" (min_length.map Json.num)
  let data := addOpt data "multiple_edits" (multiple_edits.map Json.bool)
  let data := addOpt data "lang" (lang.map Json.str)
  let data := addOpt data "auto_apply" (auto_apply.map Json.bool)
  let data := addOpt data "variety" (variety.map Json.str)
  let data := addOpt data "user_data" user_data
  let data := addOpt data "user_id" (user_id.map Json.str)
  let data := addOpt data "is_anon_user" (is_anon_user.map Json.bool)
  let result :=
    if 200 ≤ resp.status_code ∧ resp.status_code < 300 then
      Except.ok (resp.json.get "edits")
    else
      Except.error ("HTTP " ++ toString resp.status_code ++ ": " ++ resp.text)
  ⟨⟨url, data, c.timeout⟩, result, c⟩

/-- SaplingClient.complete (client.py lines 357-386). -/
def SaplingClient.complete (c : SaplingClient) (query : String)
    (session_id : Option String) (resp : Response) : CallResult :=
  let url := c.url_endpoint ++ "complete"
  let session_id := pyOrStr session_id c.default_session_id
  let data := [("key", Json.str c.api_key), ("query", Json.str query),
               ("session_id", Json.str session_id)]
  let result :=
    if 200 ≤ resp.status_code ∧ resp.status_code < 300 then
      Except.ok resp.json
    else
      Except.error ("HTTP " ++ toString resp.status_code ++ ": " ++ resp.text)
  ⟨⟨url, data, c.timeout⟩, result, c⟩

/-- SaplingClient.accept_complete (client.py lines 388-425).  Unlike
every other session-taking method, the fallback is uuid.uuid4() minted
during the call (modelled by fresh_uuid), not default_session_id; the
error message carries the literal text resp.text. -/
def SaplingClient.accept_complete (c : SaplingClient)
    (complete_uuid : String) (query : String) (completion : String)
    (session_id : Option String) (fresh_uuid : String)
    (resp : Response) : CallResult :=
  let url := c.url_endpoint ++ "complete/" ++ complete_uuid ++ "/accept"
  let session_id := pyOrStr session_id fresh_uuid
  let data := [("key", Json.str c.api_key),
               ("session_id", Json.str session_id),
               ("context", Json.obj [("query", Json.str query),
                                     ("completion", Json.str completion)])]
  let result :=
    if 200 ≤ resp.status_code ∧ resp.status_code < 300 then
      Except.ok Json.null
    else
      Except.error ("HTTP " ++ toString resp.status_code ++ ": resp.text")
  ⟨⟨url, data, c.timeout⟩, result, c⟩

/-- SaplingClient.aidetect (client.py lines 427-461).  No session_id
parameter and none in the payload; literal resp.text in the error. -/
def SaplingClient.aidetect (c : SaplingClient) (text : String)
    (sent_scores : Option Bool) (resp : Response) : CallResult :=
  let url := c.url_endpoint ++ "aidetect"
  let data := [("key", Json.str c.api_key), ("text", Json.str text)]
  let data := addOpt data "sent_scores" (sent_scores.map Json.bool)
  let result :=
    if 200 ≤ resp.status_code ∧ resp.status_code < 300 then
      Except.ok resp.json
    else
      Except.error ("HTTP " ++ toString resp.status_code ++ ": resp.text")
  ⟨⟨url, data, c.timeout⟩, result, c⟩

/-- SaplingClient.chunk_text (client.py lines 463-499).  No session_id
parameter and none in the payload. -/
def SaplingClient.chunk_text (c : SaplingClient) (text : String)
    (max_length : Int) (step_size : Option Int) (resp : Response) :
    CallResult :=
  let url := c.url_endpoint ++ "ingest/chunk_text"
  let data := [("key", Json.str c.api_key), ("text", Json.str text),
               ("max_length", Json.num max_length)]
  let data := addOpt data "step_size" (step_size.map Json.num)
  let result :=
    if 200 ≤ resp.status_code ∧ resp.status_code < 300 then
      Except.ok resp.json
    else
      Except.error ("HTTP " ++ toString resp.status_code ++ ": " ++ resp.text)
  ⟨⟨url, data, c.timeout⟩, result, c⟩

/-- SaplingClient.chunk_html (client.py lines 501-539).  No session_id
parameter and none in the payload. -/
def SaplingClient.chunk_html (c : SaplingClient) (html : String)
    (max_length : Int) (step_size : Option Int) (resp : Response) :
    CallResult :=
  let url := c.url_endpoint ++ "ingest/chunk_html"
  let data := [("key", Json.str c.api_key), ("html", Json.str html),
               ("max_length", Json.num max_length)]
  let data := addOpt data "step_size" (step_size.map Json.num)
  let result :=
    if 200 ≤ resp.status_code ∧ resp.status_code < 300 then
      Except.ok resp.json
    else
      Except.error ("HTTP " ++ toString resp.status_code ++ ": " ++ resp.text)
  ⟨⟨url, data, c.timeout⟩, result, c⟩

/-- SaplingClient.postprocess (client.py lines 541-590).  session_id is
a required positional argument, used as given. -/
def SaplingClient.postprocess (c : SaplingClient) (text : String)
    (session_id : String) (operations : List String) (resp : Response) :
    CallResult :=
  let url := c.url_endpoint ++ "postprocess"
  let data := [("key", Json.str c.api_key), ("text", Json.str text),
               ("session_id", Json.str session_id),
               ("operations", Json.arr (operations.map Json.str))]
  let result :=
    if 200 ≤ resp.status_code ∧ resp.status_code < 300 then
      Except.ok resp.json
    else
      Except.error ("HTTP " ++ toString resp.status_code ++ ": " ++ resp.text)
  ⟨⟨url, data, c.timeout⟩, result, c⟩

/-- A call to SaplingClient.edits with every optional argument left at
its declared default: session_id through advanced_edits and the user
tracking arguments default to None, while auto_apply defaults to the
value False (not None), so it is still subject to the `is not None`
inclusion test. -/
def edits_default_call (c : SaplingClient) (text : String)
    (resp : Response) : CallResult :=
  c.edits text none none none none (some false) none none none resp

/-- A call to SaplingClient.spellcheck with every optional argument
left at its declared default; as in edits, auto_apply defaults to the
value False rather than None. -/
def spellcheck_default_call (c : SaplingClient) (text : String)
    (resp : Response) : CallResult :=
  c.spellcheck text none none none none (some false) none none none none resp

/-- The session_id field a request carries, if any. -/
def sessionSent (r : CallResult) : Option Json :=
  lookupJ r.post.data "session_id"

/-- The message of the exception a call raised, or none when the call
returned normally. -/
def errorOf : Except String Json → Option String
  | Except.error e => some e
  | Except.ok _ => none

/-- Looking a key up in concatenated field lists inspects the left part
first. -/
theorem lookupJ_append (a b : List (String × Json)) (key : String) :
    lookupJ (a ++ b) key =
      match lookupJ a key with
      | some v => some v
      | none => lookupJ b key := by
  induction a with
  | nil => rfl
  | cons hd tl ih =>
    obtain ⟨k, v⟩ := hd
    by_cases h : k = key
    · simp [lookupJ, h]
    · simp [lookupJ, h, ih]

/-- Conditionally adding a field with a different key does not change a
lookup. -/
theorem lookupJ_addOpt_ne (d : List (String × Json)) (k : String)
    (key : String) (v : Option Json) (h : key ≠ k) :
    lookupJ (addOpt d k v) key = lookupJ d key := by
  cases v with
  | none => rfl
  | some j =>
    rw [addOpt, lookupJ_append]
    have h2 : lookupJ [(k, j)] key = none := by
      simp [lookupJ]
      exact fun hh => h hh.symm
    rw [h2]
    cases lookupJ d key <;> rfl

/-- Adding a field whose key the payload does not yet contain makes a
lookup of that key find it. -/
theorem lookupJ_addOpt_some_self (d : List (String × Json)) (k : String)
    (j : Json) (h : lookupJ d k = none) :
    lookupJ (addOpt d k (some j)) k = some j := by
  rw [addOpt, lookupJ_append, h]
  simp [lookupJ]

/-- C9 (confirmed): every operation leaves the client's stored
configuration unchanged — api_key, timeout, hostname, pathname, the
computed base URL url_endpoint, and default_session_id are the same
after the call as before it, for every argument list and every
response. -/
theorem client_config_unchanged (c : SaplingClient)
    (text q html uuid sid fresh : String) (s lang variety uid : Option String)
    (medical aa anon ss me : Option Bool) (adv ud : Option Json)
    (minl stp : Option Int) (mx : Int) (ops : List String)
    (resp : Response) :
    (c.edits text s lang variety medical aa adv uid anon resp).client = c
    ∧ (c.accept_edit uuid s uid resp).client = c
    ∧ (c.reject_edit uuid s uid resp).client = c
    ∧ (c.spellcheck text s minl me lang aa variety ud uid anon resp).client = c
    ∧ (c.complete q s resp).client = c
    ∧ (c.accept_complete uuid q text s fresh resp).client = c
    ∧ (c.aidetect text ss resp).client = c
    ∧ (c.chunk_text text mx stp resp).client = c
    ∧ (c.chunk_html html mx stp resp).client = c
    ∧ (c.postprocess text sid ops resp).client = c :=
  ⟨rfl, rfl, rfl, rfl, rfl, rfl, rfl, rfl, rfl, rfl⟩

/-- C5 (confirmed): for every configuration, each operation's request
URL is the stored hostname concatenated with the stored pathname and
the operation suffix, with the edit or completion UUID interpolated as
a path parameter for the feedback operations; with default hostname and
pathname the edits URL is https://api.sapling.ai/api/v1/edits. -/
theorem request_url_concatenation (api_key : String) (timeout : Int)
    (hostname pathname : Option String) (fresh text q cm uuid sid : String)
    (ops : List String) (mx : Int) (resp : Response) :
    (let c := SaplingClient.init api_key timeout hostname pathname fresh
     (c.edits text none none none none (some false) none none none resp).post.url
        = c.hostname ++ c.pathname ++ "edits"
     ∧ (c.accept_edit uuid none none resp).post.url
        = c.hostname ++ c.pathname ++ "edits/" ++ uuid ++ "/accept"
     ∧ (c.reject_edit uuid none none resp).post.url
        = c.hostname ++ c.pathname ++ "edits/" ++ uuid ++ "/reject"
     ∧ (c.spellcheck text none none none none (some false) none none none none
          resp).post.url = c.hostname ++ c.pathname ++ "spellcheck"
     ∧ (c.complete q none resp).post.url
        = c.hostname ++ c.pathname ++ "complete"
     ∧ (c.accept_complete uuid q cm none fresh resp).post.url
        = c.hostname ++ c.pathname ++ "complete/" ++ uuid ++ "/accept"
     ∧ (c.aidetect text none resp).post.url
        = c.hostname ++ c.pathname ++ "aidetect"
     ∧ (c.chunk_text text mx none resp).post.url
        = c.hostname ++ c.pathname ++ "ingest/chunk_text"
     ∧ (c.chunk_html text mx none resp).post.url
        = c.hostname ++ c.pathname ++ "ingest/chunk_html"
     ∧ (c.postprocess text sid ops resp).post.url
        = c.hostname ++ c.pathname ++ "postprocess")
    ∧ ((SaplingClient.init api_key 120 none none fresh).edits text none none
         none none (some false) none none none resp).post.url
        = "https://api.sapling.ai/api/v1/edits" :=
  ⟨⟨rfl, rfl, rfl, rfl, rfl, rfl, rfl, rfl, rfl, rfl⟩, rfl⟩

/-- C2 (code bug): on a failure status the four methods accept_edit,
reject_edit, accept_complete and aidetect raise an exception whose
message ends in the literal placeholder resp.text instead of the actual
response body, because the source f-string lacks braces around
resp.text; at status 400 with body Bad API key the message is
HTTP 400: resp.text, which differs from the message the claim
requires. -/
theorem error_message_literal_placeholder :
    ((SaplingClient.init "k" 120 none none "D").aidetect "hello" none
        ⟨400, "Bad API key", Json.null⟩).result
      = Except.error "HTTP 400: resp.text"
    ∧ ((SaplingClient.init "k" 120 none none "D").accept_edit "u" none none
        ⟨400, "Bad API key", Json.null⟩).result
      = Except.error "HTTP 400: resp.text"
    ∧ ((SaplingClient.init "k" 120 none none "D").reject_edit "u" none none
        ⟨400, "Bad API key", Json.null⟩).result
      = Except.error "HTTP 400: resp.text"
    ∧ ((SaplingClient.init "k" 120 none none "D").accept_complete "u" "q" "c"
        none "F" ⟨400, "Bad API key", Json.null⟩).result
      = Except.error "HTTP 400: resp.text"
    ∧ "HTTP 400: resp.text" ≠ "HTTP 400: Bad API key" :=
  ⟨rfl, rfl, rfl, rfl, by decide⟩

/-- C3 amended (corrected): on status 200 with body made of the single
field edits holding a list, spellcheck returns the edits list itself,
while the edit-fetch and postprocess operations return the whole
decoded body object, not the list. -/
theorem success_result_extraction (c : SaplingClient) (text sid t2 : String)
    (es : List Json) (ops : List String) :
    (c.spellcheck text none none none none (some false) none none none none
        ⟨200, t2, Json.obj [("edits", Json.arr es)]⟩).result
      = Except.ok (Json.arr es)
    ∧ (c.edits text none none none none (some false) none none none
        ⟨200, t2, Json.obj [("edits", Json.arr es)]⟩).result
      = Except.ok (Json.obj [("edits", Json.arr es)])
    ∧ (c.postprocess text sid ops
        ⟨200, t2, Json.obj [("edits", Json.arr es)]⟩).result
      = Except.ok (Json.obj [("edits", Json.arr es)]) :=
  ⟨rfl, rfl, rfl⟩

/-- C3 counterexample: the edit-fetch operation, given status 200 and
body consisting of the field edits holding the empty list, returns the
whole body object and not the edits list, refuting the claim for the
edit-fetch operation. -/
theorem edits_returns_whole_body :
    ((SaplingClient.init "k" 120 none none "D").edits "t" none none none none
        (some false) none none none
        ⟨200, "", Json.obj [("edits", Json.arr [])]⟩).result
      ≠ Except.ok (Json.arr []) := by
  intro h
  have h0 : Except.ok (Json.obj [("edits", Json.arr ([] : List Json))])
      = Except.ok (Json.arr []) := h
  injection h0 with h1
  exact Json.noConfusion h1

/-- C1 amended (corrected): when no session id is supplied, edits,
accept_edit, reject_edit, spellcheck and complete all send the single
default_session_id minted at client construction, so two such calls
send the same id; accept_complete instead sends a fresh UUID minted
during the call, so two of its calls whose minted UUIDs differ send
different session ids. -/
theorem session_default_strategy (c : SaplingClient) (text q cm uuid : String)
    (resp resp2 : Response) (fresh1 fresh2 : String) (h : fresh1 ≠ fresh2) :
    sessionSent (c.edits text none none none none (some false) none none none
        resp) = some (Json.str c.default_session_id)
    ∧ sessionSent (c.accept_edit uuid none none resp)
        = some (Json.str c.default_session_id)
    ∧ sessionSent (c.reject_edit uuid none none resp)
        = some (Json.str c.default_session_id)
    ∧ sessionSent (c.spellcheck text none none none none (some false) none
        none none none resp) = some (Json.str c.default_session_id)
    ∧ sessionSent (c.complete q none resp)
        = some (Json.str c.default_session_id)
    ∧ sessionSent (c.accept_complete uuid q cm none fresh1 resp)
        = some (Json.str fresh1)
    ∧ sessionSent (c.accept_complete uuid q cm none fresh1 resp)
        ≠ sessionSent (c.accept_complete uuid q cm none fresh2 resp2) := by
  refine ⟨rfl, rfl, rfl, rfl, rfl, rfl, ?_⟩
  simp [sessionSent, SaplingClient.accept_complete, lookupJ, pyOrStr]
  exact h

/-- Witness for session_default_strategy at a concrete client and the
distinct per-call UUIDs F1 and F2. -/
theorem session_default_strategy_witness :
    sessionSent ((SaplingClient.init "k" 120 none none "D").accept_complete
        "u" "q" "c" none "F1" ⟨200, "", Json.null⟩)
      ≠ sessionSent ((SaplingClient.init "k" 120 none none "D").accept_complete
        "u" "q" "c" none "F2" ⟨200, "", Json.null⟩) :=
  (session_default_strategy (SaplingClient.init "k" 120 none none "D")
    "t" "q" "c" "u" ⟨200, "", Json.null⟩ ⟨200, "", Json.null⟩ "F1" "F2"
    (by decide)).2.2.2.2.2.2

/-- C1 counterexample: for a client whose construction-minted UUID is
D, accept_complete called without a session id with per-call UUID F1
sends F1, not the construction-minted D, so the fixed-default strategy
is not consistent across all operations. -/
theorem accept_complete_not_construction_default :
    sessionSent ((SaplingClient.init "k" 120 none none "D").accept_complete
        "u" "q" "c" none "F1" ⟨200, "", Json.null⟩)
      ≠ some (Json.str
          ((SaplingClient.init "k" 120 none none "D").default_session_id)) := by
  simp [sessionSent, SaplingClient.accept_complete, SaplingClient.init,
    lookupJ, pyOrStr]

/-- C8 amended (corrected): a caller-supplied session id is the one
sent whenever it is not the empty string; the empty string is falsy in
the Python `or` fallback, so it is treated like an absent session id. -/
theorem supplied_session_id_sent (c : SaplingClient) (s : String)
    (h : s ≠ "") (text q cm uuid fresh : String) (resp : Response) :
    sessionSent (c.edits text (some s) none none none (some false) none none
        none resp) = some (Json.str s)
    ∧ sessionSent (c.accept_edit uuid (some s) none resp)
        = some (Json.str s)
    ∧ sessionSent (c.reject_edit uuid (some s) none resp)
        = some (Json.str s)
    ∧ sessionSent (c.spellcheck text (some s) none none none (some false)
        none none none none resp) = some (Json.str s)
    ∧ sessionSent (c.complete q (some s) resp) = some (Json.str s)
    ∧ sessionSent (c.accept_complete uuid q cm (some s) fresh resp)
        = some (Json.str s) := by
  refine ⟨?_, ?_, ?_, ?_, ?_, ?_⟩ <;>
    simp [sessionSent, SaplingClient.edits, SaplingClient.accept_edit,
      SaplingClient.reject_edit, SaplingClient.spellcheck,
      SaplingClient.complete, SaplingClient.accept_complete,
      lookupJ, pyOrStr, h]

/-- Witness for supplied_session_id_sent at a concrete client and the
supplied session id S. -/
theorem supplied_session_id_sent_witness :
    sessionSent ((SaplingClient.init "k" 120 none none "D").edits "t"
        (some "S") none none none (some false) none none none
        ⟨200, "", Json.null⟩) = some (Json.str "S") :=
  (supplied_session_id_sent (SaplingClient.init "k" 120 none none "D") "S"
    (by decide) "t" "q" "c" "u" "F" ⟨200, "", Json.null⟩).1

/-- C8 counterexample: supplying the empty string as session id to the
edit-fetch operation sends the client default D, not the supplied empty
string, refuting the claim at that input. -/
theorem empty_session_id_replaced :
    sessionSent ((SaplingClient.init "k" 120 none none "D").edits "t"
        (some "") none none none (some false) none none none
        ⟨200, "", Json.null⟩) ≠ some (Json.str "") := by
  simp [sessionSent, SaplingClient.edits, SaplingClient.init, lookupJ, pyOrStr]

/-- C6 (confirmed): for every operation and every response, a status in
the range 200 to 299 yields a normal return with no exception, any
status outside that range yields an exception whose message carries
that status code, and the single request a call issues is the same
whatever the response is, so no retry or second request depends on the
outcome. -/
theorem status_classification (c : SaplingClient)
    (text q html uuid sid fresh : String) (sess lang variety uid : Option String)
    (medical aa anon ss me : Option Bool) (adv ud : Option Json)
    (minl stp : Option Int) (mx : Int) (ops : List String)
    (resp resp2 : Response) :
    (errorOf (c.edits text sess lang variety medical aa adv uid anon
        resp).result
      = if 200 ≤ resp.status_code ∧ resp.status_code < 300 then none
        else some ("HTTP " ++ toString resp.status_code ++ ": " ++ resp.text))
    ∧ (errorOf (c.accept_edit uuid sess uid resp).result
      = if 200 ≤ resp.status_code ∧ resp.status_code < 300 then none
        else some ("HTTP " ++ toString resp.status_code ++ ": resp.text"))
    ∧ (errorOf (c.reject_edit uuid sess uid resp).result
      = if 200 ≤ resp.status_code ∧ resp.status_code < 300 then none
        else some ("HTTP " ++ toString resp.status_code ++ ": resp.text"))
    ∧ (errorOf (c.spellcheck text sess minl me lang aa variety ud uid anon
        resp).result
      = if 200 ≤ resp.status_code ∧ resp.status_code < 300 then none
        else some ("HTTP " ++ toString resp.status_code ++ ": " ++ resp.text))
    ∧ (errorOf (c.complete q sess resp).result
      = if 200 ≤ resp.status_code ∧ resp.status_code < 300 then none
        else some ("HTTP " ++ toString resp.status_code ++ ": " ++ resp.text))
    ∧ (errorOf (c.accept_complete uuid q text sess fresh resp).result
      = if 200 ≤ resp.status_code ∧ resp.status_code < 300 then none
        else some ("HTTP " ++ toString resp.status_code ++ ": resp.text"))
    ∧ (errorOf (c.aidetect text ss resp).result
      = if 200 ≤ resp.status_code ∧ resp.status_code < 300 then none
        else some ("HTTP " ++ toString resp.status_code ++ ": resp.text"))
    ∧ (errorOf (c.chunk_text text mx stp resp).result
      = if 200 ≤ resp.status_code ∧ resp.status_code < 300 then none
        else some ("HTTP " ++ toString resp.status_code ++ ": " ++ resp.text))
    ∧ (errorOf (c.chunk_html html mx stp resp).result
      = if 200 ≤ resp.status_code ∧ resp.status_code < 300 then none
        else some ("HTTP " ++ toString resp.status_code ++ ": " ++ resp.text))
    ∧ (errorOf (c.postprocess text sid ops resp).result
      = if 200 ≤ resp.status_code ∧ resp.status_code < 300 then none
        else some ("HTTP " ++ toString resp.status_code ++ ": " ++ resp.text))
    ∧ (c.edits text sess lang variety medical aa adv uid anon resp).post
        = (c.edits text sess lang variety medical aa adv uid anon resp2).post
    ∧ (c.accept_edit uuid sess uid resp).post
        = (c.accept_edit uuid sess uid resp2).post
    ∧ (c.reject_edit uuid sess uid resp).post
        = (c.reject_edit uuid sess uid resp2).post
    ∧ (c.spellcheck text sess minl me lang aa variety ud uid anon resp).post
        = (c.spellcheck text sess minl me lang aa variety ud uid anon
            resp2).post
    ∧ (c.complete q sess resp).post = (c.complete q sess resp2).post
    ∧ (c.accept_complete uuid q text sess fresh resp).post
        = (c.accept_complete uuid q text sess fresh resp2).post
    ∧ (c.aidetect text ss resp).post = (c.aidetect text ss resp2).post
    ∧ (c.chunk_text text mx stp resp).post
        = (c.chunk_text text mx stp resp2).post
    ∧ (c.chunk_html html mx stp resp).post
        = (c.chunk_html html mx stp resp2).post
    ∧ (c.postprocess text sid ops resp).post
        = (c.postprocess text sid ops resp2).post := by
  by_cases h : 200 ≤ resp.status_code ∧ resp.status_code < 300 <;>
    simp [SaplingClient.edits, SaplingClient.accept_edit,
      SaplingClient.reject_edit, SaplingClient.spellcheck,
      SaplingClient.complete, SaplingClient.accept_complete,
      SaplingClient.aidetect, SaplingClient.chunk_text,
      SaplingClient.chunk_html, SaplingClient.postprocess, errorOf, h]

/-- C4 amended (corrected): every operation's payload carries the field
key holding the configured credential; the seven operations that take a
session id also carry the field session_id holding the resolved session
id; aidetect, chunk_text and chunk_html take no session id and their
payloads carry no session_id field at all. -/
theorem payload_key_and_session (c : SaplingClient)
    (text q cm html uuid sid fresh : String)
    (sess lang variety uid : Option String)
    (medical aa anon ss me : Option Bool) (adv ud : Option Json)
    (minl stp : Option Int) (mx : Int) (ops : List String)
    (resp : Response) :
    (lookupJ (c.edits text sess lang variety medical aa adv uid anon
        resp).post.data "key" = some (Json.str c.api_key))
    ∧ (lookupJ (c.accept_edit uuid sess uid resp).post.data "key"
        = some (Json.str c.api_key))
    ∧ (lookupJ (c.reject_edit uuid sess uid resp).post.data "key"
        = some (Json.str c.api_key))
    ∧ (lookupJ (c.spellcheck text sess minl me lang aa variety ud uid anon
        resp).post.data "key" = some (Json.str c.api_key))
    ∧ (lookupJ (c.complete q sess resp).post.data "key"
        = some (Json.str c.api_key))
    ∧ (lookupJ (c.accept_complete uuid q cm sess fresh resp).post.data "key"
        = some (Json.str c.api_key))
    ∧ (lookupJ (c.aidetect text ss resp).post.data "key"
        = some (Json.str c.api_key))
    ∧ (lookupJ (c.chunk_text text mx stp resp).post.data "key"
        = some (Json.str c.api_key))
    ∧ (lookupJ (c.chunk_html html mx stp resp).post.data "key"
        = some (Json.str c.api_key))
    ∧ (lookupJ (c.postprocess text sid ops resp).post.data "key"
        = some (Json.str c.api_key))
    ∧ (sessionSent (c.edits text sess lang variety medical aa adv uid anon
        resp) = some (Json.str (pyOrStr sess c.default_session_id)))
    ∧ (sessionSent (c.accept_edit uuid sess uid resp)
        = some (Json.str (pyOrStr sess c.default_session_id)))
    ∧ (sessionSent (c.reject_edit uuid sess uid resp)
        = some (Json.str (pyOrStr sess c.default_session_id)))
    ∧ (sessionSent (c.spellcheck text sess minl me lang aa variety ud uid anon
        resp) = some (Json.str (pyOrStr sess c.default_session_id)))
    ∧ (sessionSent (c.complete q sess resp)
        = some (Json.str (pyOrStr sess c.default_session_id)))
    ∧ (sessionSent (c.accept_complete uuid q cm sess fresh resp)
        = some (Json.str (pyOrStr sess fresh)))
    ∧ (sessionSent (c.postprocess text sid ops resp) = some (Json.str sid))
    ∧ (sessionSent (c.aidetect text ss resp) = none)
    ∧ (sessionSent (c.chunk_text text mx stp resp) = none)
    ∧ (sessionSent (c.chunk_html html mx stp resp) = none) := by
  simp [SaplingClient.edits, SaplingClient.accept_edit,
    SaplingClient.reject_edit, SaplingClient.spellcheck,
    SaplingClient.complete, SaplingClient.accept_complete,
    SaplingClient.aidetect, SaplingClient.chunk_text,
    SaplingClient.chunk_html, SaplingClient.postprocess,
    sessionSent, lookupJ_addOpt_ne, lookupJ]

/-- C4 counterexample: the aidetect payload carries no session_id field
at all, refuting the claim that every operation's payload contains one. -/
theorem aidetect_payload_lacks_session_id :
    sessionSent ((SaplingClient.init "k" 120 none none "D").aidetect "t" none
      ⟨200, "", Json.null⟩) = none := rfl

/-- C7 (confirmed): calling the edit-fetch operation with the explicit
argument auto_apply False still transmits the field auto_apply with
value false, whatever the other optional arguments are. -/
theorem explicit_false_auto_apply_included (c : SaplingClient) (text : String)
    (sess lang variety uid : Option String) (medical anon : Option Bool)
    (adv : Option Json) (resp : Response) :
    lookupJ (c.edits text sess lang variety medical (some false) adv uid anon
      resp).post.data "auto_apply" = some (Json.bool false) := by
  simp [SaplingClient.edits, lookupJ_addOpt_ne, lookupJ_addOpt_some_self,
    lookupJ]

/-- C10 amended (corrected): calling edits or spellcheck with every
optional argument left at its declared default still transmits
auto_apply false, because the parameter defaults to the value False
rather than to the absent marker None; omitting the field is
nevertheless expressible through the public interface, by passing None
for auto_apply explicitly. -/
theorem default_call_auto_apply_included (c : SaplingClient) (text : String)
    (resp : Response) :
    lookupJ (edits_default_call c text resp).post.data "auto_apply"
        = some (Json.bool false)
    ∧ lookupJ (spellcheck_default_call c text resp).post.data "auto_apply"
        = some (Json.bool false) :=
  ⟨rfl, rfl⟩

/-- C10 counterexample: explicitly passing None for auto_apply omits
the field from the edit-fetch payload, so omission of the field is
expressible through the public interface. -/
theorem none_auto_apply_omitted :
    lookupJ ((SaplingClient.init "k" 120 none none "D").edits "t" none none
      none none none none none none ⟨200, "", Json.null⟩).post.data
      "auto_apply" = none := rfl

end Sapling
